import Mathlib

/-!
Verification development for the support layer of the registermaps package
(module registermaps/util.py): resource resolution with caching, output
destination hierarchy, output class registry and verbose diagnostics.

Python strings are modelled by Lean String (a sequence of characters, as in
Python), bundled package resources by a partial map from resource path to a
byte list, and Python exceptions by an explicit error type carried in Except.
-/

set_option autoImplicit false

namespace RegisterMaps

/-- Python exception classes that the embedded code can raise. -/
inductive PyError
  | attributeError
  | notImplementedError
  | keyError
  | fileNotFoundError
  | unicodeDecodeError
  | templateNotFound
  | valueError
  deriving DecidableEq

/-- Bytes of a file, modelled as a list of byte values. -/
abbrev Bytes := List Nat

/-- The bundled resource directory: a partial map from a path (relative to the
resource root) to the bytes of the file there; `none` means no such file. -/
abbrev ResourceFS := String → Option Bytes

/-- Decoder model: given an encoding name, an error policy and bytes, either
the decoded text or `none` for a decode failure (UnicodeDecodeError). -/
abbrev Decoder := String → String → Bytes → Option String

/-- Source constant `_RSC`: base path prefix for resource files. -/
def _RSC : String := "resource/"

/-- Source function `_strip_resource`: return x, optionally stripping
`resource/` as a prefix (Python: `if x.startswith(_RSC): return x[len(_RSC):]`,
a character-index slice, hence `String.drop` of `_RSC.length` characters). -/
def _strip_resource (x : String) : String :=
  if _RSC.data.isPrefixOf x.data then x.drop _RSC.length else x

/-- Source function `resource_bytes` (cache aside, see the cached variant
below): read the resource as binary data; a missing file makes
`rsc.read_bytes()` raise FileNotFoundError. -/
def resource_bytes (fs : String → Option Bytes) (resourcename : String) :
    Except PyError Bytes :=
  match fs (_strip_resource resourcename) with
  | some bs => .ok bs
  | none => .error .fileNotFoundError

/-- Source function `resource_text` (cache aside): open the resource in text
mode with the given encoding and error policy and read it; a missing file
raises FileNotFoundError at open, undecodable bytes raise UnicodeDecodeError
at read. -/
def resource_text (fs : String → Option Bytes) (dec : Decoder)
    (resourcename encoding errors : String) : Except PyError String :=
  match fs (_strip_resource resourcename) with
  | some bs =>
    match dec encoding errors bs with
    | some s => .ok s
    | none => .error .unicodeDecodeError
  | none => .error .fileNotFoundError

/-- Parsed jinja template object (the template engine itself is an external
collaborator; a template is identified by its loaded source text). -/
structure Template where
  source : String
  deriving DecidableEq

/-- Source function `resource_template` (cache aside): strip the resource
prefix and look the name up through the process-wide jinja environment,
modelled by the abstract `getTemplate` operation of that environment. -/
def resource_template (getTemplate : String → Except PyError Template)
    (resourcename : String) : Except PyError Template :=
  getTemplate (_strip_resource resourcename)

end RegisterMaps

namespace RegisterMaps

/-! ### The lru_cache model

Source: `@lru_cache(64)` on each resolver.  functools.lru_cache memoizes on
the exact argument tuple, holds at most 64 entries with least-recently-used
eviction, caches only successful returns (a raised exception is not cached),
and calls the wrapped function exactly once per miss.  The model keeps the
cache as an association list in most-recently-used-first order together with
a counter of calls to the wrapped function. -/

/-- Capacity passed to `lru_cache` in the source. -/
def CACHE_SIZE : Nat := 64

/-- State of one memoized resolver: cache entries (most recently used first)
and the number of calls made so far to the wrapped function. -/
structure CacheState (α : Type) where
  entries : List (String × α)
  calls : Nat
  deriving DecidableEq

/-- Fresh state of a memoized resolver. -/
def CacheState.empty (α : Type) : CacheState α := ⟨[], 0⟩

/-- One call through `lru_cache`: on a hit return the cached value and move
the entry to the front; on a miss call the wrapped function, cache the value
on success (evicting beyond capacity) and cache nothing on an exception. -/
def cachedCall {α : Type} (f : String → Except PyError α)
    (st : CacheState α) (k : String) : Except PyError α × CacheState α :=
  match st.entries.find? (fun p => p.1 == k) with
  | some p =>
    (.ok p.2, ⟨(k, p.2) :: st.entries.filter (fun q => ¬ q.1 == k), st.calls⟩)
  | none =>
    match f k with
    | .ok v => (.ok v, ⟨((k, v) :: st.entries).take CACHE_SIZE, st.calls + 1⟩)
    | .error e => (.error e, ⟨st.entries, st.calls + 1⟩)

/-- Source function `resource_bytes` with its `@lru_cache(64)` decorator: the
cache key is the raw `resourcename` argument; `_strip_resource` is applied
inside the wrapped function, after keying. -/
def resource_bytes_cached (fs : String → Option Bytes)
    (st : CacheState Bytes) (resourcename : String) :
    Except PyError Bytes × CacheState Bytes :=
  cachedCall (resource_bytes fs) st resourcename

/-! ### Package-wide globals and diagnostics -/

/-- Standard streams of the process. -/
inductive StdStream
  | stdout
  | stderr
  deriving DecidableEq

/-- Source global `ProgramGlobals`, a dict with the single key `verbose`. -/
structure ProgramGlobals where
  verbose : Bool
  deriving DecidableEq

/-- Initial value of `ProgramGlobals` at module load: verbose is False. -/
def ProgramGlobals.initial : ProgramGlobals := ⟨false⟩

/-- Console state: the lines written so far to stderr and to stdout. -/
structure Console where
  errWrites : List String
  outWrites : List String
  deriving DecidableEq

/-- Builtin `print(*args, file=f)` with default separator and end: write the
arguments joined by one space, followed by a newline, to the stream f. -/
def pyPrint (args : List String) (file : StdStream) (c : Console) : Console :=
  match file with
  | .stderr => ⟨c.errWrites ++ [String.intercalate " " args ++ "\n"], c.outWrites⟩
  | .stdout => ⟨c.errWrites, c.outWrites ++ [String.intercalate " " args ++ "\n"]⟩

/-- Source function `printverbose`: print to stderr if
`ProgramGlobals[verbose]`; the file keyword argument defaults to sys.stderr
by `kwargs.setdefault`, and nothing at all happens when verbose is false. -/
def printverbose (g : ProgramGlobals) (args : List String)
    (file : Option StdStream) (c : Console) : Console :=
  if g.verbose then pyPrint args (file.getD .stderr) c else c

/-! ### Output destinations

The four destination classes derive from `_BaseOutputDestination`, which
defines `open` as a method raising NotImplementedError and `stream` as a
property (getter only, no setter) raising NotImplementedError.  Because a
Python property is a data descriptor, an instance assignment
`self.stream = v` on any subclass that does not override `stream` with a
settable attribute dispatches to the property and raises AttributeError;
the instance dict is never written.  Methods named `open` in the source are
named `open_` here because `open` is a Lean keyword. -/

/-- Handle produced by the builtin `open`, identified by the opened path. -/
structure FileHandle where
  path : String
  deriving DecidableEq

/-- State of the writable filesystem: association list from path to the list
of chunks written to the file there. -/
structure OutputWorld where
  files : List (String × List String)
  deriving DecidableEq

/-- Python dict insertion `d[k] = v`: replace the value in place when the key
is present, append a new entry otherwise (dicts keep insertion order). -/
def dictInsert {α : Type} (d : List (String × α)) (k : String) (v : α) :
    List (String × α) :=
  if d.any (fun p => p.1 == k) then
    d.map (fun p => if p.1 == k then (k, v) else p)
  else d ++ [(k, v)]

/-- Builtin `open(path, mode)` on the writable filesystem: mode w truncates
or creates, mode a creates if absent and keeps existing content, mode r
requires the file to exist, any other mode is a ValueError. -/
def pyOpen (w : OutputWorld) (path mode : String) :
    Except PyError FileHandle × OutputWorld :=
  if mode == "w" then (.ok ⟨path⟩, ⟨dictInsert w.files path []⟩)
  else if mode == "a" then
    match w.files.find? (fun p => p.1 == path) with
    | some _ => (.ok ⟨path⟩, w)
    | none => (.ok ⟨path⟩, ⟨dictInsert w.files path []⟩)
  else if mode == "r" then
    match w.files.find? (fun p => p.1 == path) with
    | some _ => (.ok ⟨path⟩, w)
    | none => (.error .fileNotFoundError, w)
  else (.error .valueError, w)

/-- Source `os.path.join(a, b)` for two components (posix rules): an absolute
second component replaces the first, otherwise a separator is inserted
unless the first component is empty or already ends with one. -/
def ospath_join (a b : String) : String :=
  if "/".data.isPrefixOf b.data then b
  else if a == "" then a ++ b
  else if "/".data.isSuffixOf a.data then a ++ b
  else a ++ "/" ++ b

/-- Python assignment `self.stream = v` on an instance of a subclass of
`_BaseOutputDestination` that inherits the stream property: the property is a
data descriptor with a getter only, so the assignment raises AttributeError
(property of object has no setter) and the instance is never produced.  The
value v is evaluated before the assignment and then discarded; mk records
which constructor would have run. -/
def assignStreamAttr (α β : Type) (_mk : α → β) (_v : α) : Except PyError β :=
  .error .attributeError

/-- Method `_BaseOutputDestination.open`: raise NotImplementedError whatever
the arguments are. -/
def _BaseOutputDestination.open_ : Except PyError Unit :=
  .error .notImplementedError

/-- Class TextOutput: the intended instance state, one wrapped file handle
in the attribute `stream`. -/
structure TextOutput where
  stream : FileHandle
  deriving DecidableEq

/-- Constructor `TextOutput(filehandle)`: the body `self.stream = filehandle`
assigns through the inherited read-only stream property, see
`assignStreamAttr`. -/
def TextOutput.init (filehandle : FileHandle) : Except PyError TextOutput :=
  assignStreamAttr FileHandle TextOutput TextOutput.mk filehandle

/-- TextOutput does not override `open`, so calling it dispatches to the
inherited `_BaseOutputDestination.open`. -/
def TextOutput.open_ (_self : TextOutput) : Except PyError Unit :=
  _BaseOutputDestination.open_

/-- Class DirOutput: wraps the target directory path. -/
structure DirOutput where
  dir : String
  deriving DecidableEq

/-- Method `DirOutput.open(filename, *args)`: join the directory and the
filename, open a file there with the caller-given mode, and construct a
TextOutput around the handle.  The builtin open runs first (in write mode it
creates or truncates the file), then the TextOutput constructor runs. -/
def DirOutput.open_ (self : DirOutput) (filename mode : String)
    (w : OutputWorld) : Except PyError TextOutput × OutputWorld :=
  match pyOpen w (ospath_join self.dir filename) mode with
  | (.ok h, w2) => (TextOutput.init h, w2)
  | (.error e, w2) => (.error e, w2)

/-- Class StdOutput: no instance state. -/
structure StdOutput where
  deriving DecidableEq

/-- Method `StdOutput.open(*args, **kwargs)`: return self. -/
def StdOutput.open_ (self : StdOutput) : Except PyError StdOutput :=
  .ok self

/-- Property `StdOutput.stream`: always sys.stdout. -/
def StdOutput.stream (_self : StdOutput) : StdStream :=
  .stdout

/-- Growable in-memory text buffer (io.StringIO): the accumulated string. -/
structure StringBuffer where
  buf : String
  deriving DecidableEq

/-- io.StringIO() with no argument: an empty buffer. -/
def StringBuffer.new : StringBuffer := ⟨""⟩

/-- StringIO write: append the text to the buffer. -/
def StringBuffer.write (s : StringBuffer) (t : String) : StringBuffer :=
  ⟨s.buf ++ t⟩

/-- StringIO getvalue: the full current contents of the buffer. -/
def StringBuffer.getvalue (s : StringBuffer) : String :=
  s.buf

/-- Class StringOutput: the intended instance state, one buffer in the
attribute `stream`. -/
structure StringOutput where
  stream : StringBuffer
  deriving DecidableEq

/-- Constructor `StringOutput()`: the body `self.stream = io.StringIO()`
allocates the buffer and then assigns through the inherited read-only stream
property, see `assignStreamAttr`. -/
def StringOutput.init : Except PyError StringOutput :=
  assignStreamAttr StringBuffer StringOutput StringOutput.mk StringBuffer.new

/-- Property `StringOutput.str`: getvalue of the stream attribute. -/
def StringOutput.str (self : StringOutput) : String :=
  self.stream.getvalue

/-! ### Output class registration -/

/-- A class registered with the command line tool: its declared outputname
attribute, plus an identity so that distinct classes with equal names can be
told apart. -/
structure OutputClass where
  outputname : String
  classId : Nat
  deriving DecidableEq

/-- Class _Outputs: wraps the dict `_outputs` from name to class. -/
structure _Outputs where
  _outputs : List (String × OutputClass)
  deriving DecidableEq

/-- The module-level `Outputs = _Outputs()` singleton starts empty. -/
def _Outputs.initial : _Outputs := ⟨[]⟩

/-- Method `register(kls)`: store kls in the dict under `kls.outputname` and
return kls, so it can be used as a class decorator. -/
def _Outputs.register (self : _Outputs) (kls : OutputClass) :
    _Outputs × OutputClass :=
  (⟨dictInsert self._outputs kls.outputname kls⟩, kls)

/-- Method `__iter__`: iterate over the registered output names, in dict
order. -/
def _Outputs.iterNames (self : _Outputs) : List String :=
  self._outputs.map (fun p => p.1)

/-- Method `output(output)`: index the dict; a missing name raises
KeyError. -/
def _Outputs.output (self : _Outputs) (output : String) :
    Except PyError OutputClass :=
  match self._outputs.find? (fun p => p.1 == output) with
  | some p => .ok p.2
  | none => .error .keyError

/-- Method `docs(output)`: return
resource_text of resource/ ++ output ++ /README.rst (the source builds the
name by string formatting); the dict `self._outputs` is not consulted. -/
def _Outputs.docs (_self : _Outputs) (fs : ResourceFS) (dec : Decoder)
    (output : String) : Except PyError String :=
  resource_text fs dec ("resource/" ++ output ++ "/README.rst") "utf-8" "strict"

end RegisterMaps

namespace RegisterMaps

/-! ### Helper lemmas -/

/-- Stripping after prepending the resource prefix recovers the name. -/
theorem strip_resource_append (s : String) :
    _strip_resource (_RSC ++ s) = s := by
  have hpre : _RSC.data.isPrefixOf (_RSC ++ s).data = true := by
    rw [String.data_append]
    exact List.isPrefixOf_iff_prefix.mpr (List.prefix_append _ _)
  rw [_strip_resource, if_pos hpre, String.drop_eq, String.data_append]
  show String.mk ((_RSC.data ++ s.data).drop _RSC.data.length) = s
  rw [List.drop_left]

/-- A name that does not start with the resource prefix is left unchanged. -/
theorem strip_resource_no_marker (s : String)
    (h : ¬ _RSC.data.isPrefixOf s.data = true) :
    _strip_resource s = s := by
  rw [_strip_resource, if_neg h]

end RegisterMaps

namespace RegisterMaps

/-- String concatenation is associative (via the underlying character
lists). -/
theorem string_append_assoc (a b c : String) : (a ++ b) ++ c = a ++ (b ++ c) := by
  apply String.ext
  simp [String.data_append, List.append_assoc]

/-- A name differs from the same name with the resource prefix prepended
(the character counts differ). -/
theorem beq_rsc_append_false (n : String) : (n == _RSC ++ n) = false := by
  simp only [beq_eq_false_iff_ne, ne_eq]
  intro h2
  have h3 : n.data.length = (_RSC ++ n).data.length := by rw [← h2]
  rw [String.data_append, List.length_append] at h3
  have h9 : _RSC.data.length = 9 := by decide
  omega

/-- Symmetric form of `beq_rsc_append_false`. -/
theorem beq_append_rsc_false (n : String) : (_RSC ++ n == n) = false := by
  simp only [beq_eq_false_iff_ne, ne_eq]
  intro h2
  have h3 : (_RSC ++ n).data.length = n.data.length := by rw [h2]
  rw [String.data_append, List.length_append] at h3
  have h9 : _RSC.data.length = 9 := by decide
  omega

/-- The name docs builds always loses exactly the resource prefix under
normalization. -/
theorem docs_target (s : String) :
    _strip_resource (("resource/" ++ s) ++ "/README.rst") = s ++ "/README.rst" := by
  rw [string_append_assoc]
  exact strip_resource_append (s ++ "/README.rst")

/-- In-place replacement keeps the entry findable under its key. -/
theorem find_map_replace {α : Type} (d : List (String × α)) (k : String) (v : α)
    (h : d.any (fun p => p.1 == k) = true) :
    (d.map (fun p => if p.1 == k then (k, v) else p)).find?
      (fun p => p.1 == k) = some (k, v) := by
  induction d with
  | nil => simp at h
  | cons p t ih =>
    simp only [List.any_cons, Bool.or_eq_true] at h
    rw [List.map_cons]
    by_cases hp : (p.1 == k) = true
    · rw [if_pos hp]
      exact List.find?_cons_of_pos _ (beq_self_eq_true k)
    · have ht : t.any (fun p => p.1 == k) = true := h.resolve_left hp
      have hpb : (p.1 == k) = false := by
        cases hb : (p.1 == k) with
        | false => rfl
        | true => exact absurd hb hp
      rw [if_neg hp, List.find?_cons, hpb]
      exact ih ht

/-- Appending a fresh entry makes it findable under its key. -/
theorem find_append_single {α : Type} (d : List (String × α)) (k : String) (v : α)
    (h : d.any (fun p => p.1 == k) = false) :
    (d ++ [(k, v)]).find? (fun p => p.1 == k) = some (k, v) := by
  induction d with
  | nil => simp [List.find?]
  | cons p t ih =>
    simp only [List.any_cons, Bool.or_eq_false_iff] at h
    simp only [List.cons_append, List.find?_cons, h.1]
    exact ih h.2

/-- Looking up the inserted key after a dict insertion finds the inserted
value. -/
theorem dictInsert_find {α : Type} (d : List (String × α)) (k : String) (v : α) :
    (dictInsert d k v).find? (fun p => p.1 == k) = some (k, v) := by
  rw [dictInsert]
  split
  case isTrue h => exact find_map_replace d k v h
  case isFalse h =>
    refine find_append_single d k v ?_
    cases hb : d.any (fun p => p.1 == k) with
    | false => rfl
    | true => exact absurd hb h

/-- The inserted key is among the keys after a dict insertion. -/
theorem dictInsert_mem_keys {α : Type} (d : List (String × α)) (k : String) (v : α) :
    k ∈ (dictInsert d k v).map (fun p => p.1) := by
  rw [dictInsert]
  split
  case isTrue h =>
    rcases List.any_eq_true.mp h with ⟨p, hp, hpk⟩
    refine List.mem_map.mpr ⟨(k, v), List.mem_map.mpr ⟨p, hp, by simp [hpk]⟩, rfl⟩
  case isFalse h => simp

/-- A key absent from an association list is not found in it. -/
theorem find_none_of_not_mem_keys {α : Type} (d : List (String × α)) (s : String)
    (h : s ∉ d.map (fun p => p.1)) :
    d.find? (fun p => p.1 == s) = none := by
  refine List.find?_eq_none.mpr ?_
  intro p hp hps
  exact h (List.mem_map.mpr ⟨p, hp, eq_of_beq hps⟩)

end RegisterMaps

namespace RegisterMaps

/-! ### Claim theorems -/

/-- C1: a Directory destination over directory d, asked to open x.txt in
write mode, joins the two paths and creates the file there, but the
TextOutput constructor then raises AttributeError, because the base class
declares stream as a read-only property and the constructor body assigns to
it.  No direct-stream destination wrapping the handle is ever returned, so
the write-and-close round trip claimed by the specification cannot happen;
the opened file is left behind created and empty.  The second part shows the
failure for every directory, filename and filesystem state. -/
theorem c1_dirOutput_open_raises :
    DirOutput.open_ ⟨"d"⟩ "x.txt" "w" ⟨[]⟩ =
      (.error .attributeError, ⟨[("d/x.txt", [])]⟩) ∧
    (∀ (d f : String) (w : OutputWorld),
      (DirOutput.open_ ⟨d⟩ f "w" w).1 = .error .attributeError) :=
  ⟨rfl, fun _ _ _ => rfl⟩

/-- C2: constructing the in-memory destination raises AttributeError, again
because the constructor body assigns to the read-only stream property
inherited from the base class, so no instance exists whose stream could be
written.  The second part shows that the underlying text buffer by itself
would concatenate the two writes as the claim describes: the slip is in the
constructor, not in the buffer. -/
theorem c2_stringOutput_init_raises :
    StringOutput.init = .error .attributeError ∧
    ((StringBuffer.new.write "abc").write "def").getvalue = "abcdef" :=
  ⟨rfl, rfl⟩

/-- C3 counterexample: over a storage holding the single resource a,
resolving a and then resource/a through the cached byte resolver from a
fresh cache calls the underlying read twice and leaves two cache entries:
the two spellings do not hit the same cache entry, and storage is read more
than once across the two calls. -/
theorem c3_cache_shared_entry_cex :
    ¬ ((resource_bytes_cached (fun s => if s == "a" then some [65] else none)
        ((resource_bytes_cached (fun s => if s == "a" then some [65] else none)
          (CacheState.empty Bytes) "a").2) "resource/a").2.calls ≤ 1) ∧
    (resource_bytes_cached (fun s => if s == "a" then some [65] else none)
        ((resource_bytes_cached (fun s => if s == "a" then some [65] else none)
          (CacheState.empty Bytes) "a").2) "resource/a").2.entries.length = 2 := by
  decide

/-- C3 (amended): the lru_cache keys on the raw, unnormalized name, so a
name and its prefixed form occupy two distinct cache entries: each of the
two calls misses and reads storage once (two reads in total, not one), both
return the same content, and after both entries exist a repeat of either
call hits its own entry and reads storage no further. -/
theorem c3_cache_separate_entries (fs : ResourceFS) (n : String) (v : Bytes)
    (hn : ¬ _RSC.data.isPrefixOf n.data = true) (hv : fs n = some v) :
    resource_bytes_cached fs (CacheState.empty Bytes) n = (.ok v, ⟨[(n, v)], 1⟩) ∧
    resource_bytes_cached fs ⟨[(n, v)], 1⟩ (_RSC ++ n) =
      (.ok v, ⟨[(_RSC ++ n, v), (n, v)], 2⟩) ∧
    (resource_bytes_cached fs ⟨[(_RSC ++ n, v), (n, v)], 2⟩ n).2.calls = 2 ∧
    (resource_bytes_cached fs ⟨[(_RSC ++ n, v), (n, v)], 2⟩ (_RSC ++ n)).2.calls = 2 := by
  have hs1 : _strip_resource n = n := strip_resource_no_marker n hn
  have hs2 : _strip_resource (_RSC ++ n) = n := strip_resource_append n
  have hb1 : (n == _RSC ++ n) = false := beq_rsc_append_false n
  have hb2 : (_RSC ++ n == n) = false := beq_append_rsc_false n
  refine ⟨?_, ?_, ?_, ?_⟩
  · simp only [resource_bytes_cached, cachedCall, CacheState.empty, List.find?_nil,
      resource_bytes, hs1, hv]
    rfl
  · simp only [resource_bytes_cached, cachedCall, List.find?_cons, hb1, List.find?_nil,
      resource_bytes, hs2, hv]
    rfl
  · simp only [resource_bytes_cached, cachedCall, List.find?_cons, hb2, beq_self_eq_true]
  · simp only [resource_bytes_cached, cachedCall, List.find?_cons, beq_self_eq_true]

/-- Witness for the C3 theorem at the storage holding the single
resource a with content byte 65. -/
theorem c3_cache_separate_entries_witness :
    (¬ _RSC.data.isPrefixOf (String.data "a") = true) ∧
    ((fun s : String => if s == "a" then some [65] else none) "a" = some ([65] : Bytes)) ∧
    (resource_bytes_cached (fun s => if s == "a" then some [65] else none)
        (CacheState.empty Bytes) "a" = (.ok [65], ⟨[("a", [65])], 1⟩) ∧
      resource_bytes_cached (fun s => if s == "a" then some [65] else none)
          ⟨[("a", [65])], 1⟩ (_RSC ++ "a") =
        (.ok [65], ⟨[(_RSC ++ "a", [65]), ("a", [65])], 2⟩) ∧
      (resource_bytes_cached (fun s => if s == "a" then some [65] else none)
          ⟨[(_RSC ++ "a", [65]), ("a", [65])], 2⟩ "a").2.calls = 2 ∧
      (resource_bytes_cached (fun s => if s == "a" then some [65] else none)
          ⟨[(_RSC ++ "a", [65]), ("a", [65])], 2⟩ (_RSC ++ "a")).2.calls = 2) :=
  ⟨by decide, rfl,
    c3_cache_separate_entries (fun s => if s == "a" then some [65] else none) "a" [65]
      (by decide) rfl⟩

/-- C4 counterexample: over a storage with two distinct files a and
resource/a, the name resource/a resolves successfully (the prefix is
stripped once, reaching file a), but its prefixed form resource/resource/a
resolves to the different file resource/a, so resolving a successful name
and its prefixed form is not always content-identical. -/
theorem c4_prefix_equiv_cex :
    resource_bytes
        (fun s => if s == "a" then some [1] else if s == "resource/a" then some [2] else none)
        "resource/a" = .ok [1] ∧
    resource_bytes
        (fun s => if s == "a" then some [1] else if s == "resource/a" then some [2] else none)
        (_RSC ++ "resource/a") = .ok [2] ∧
    (Except.ok ([2] : Bytes) : Except PyError Bytes) ≠ .ok [1] :=
  ⟨rfl, rfl, by simp⟩

/-- C4 (amended): for every name n that does not itself start with the
resource prefix, resolving n and resolving resource/ ++ n agree for all
three operations: bytes, text at equal encoding and error policy, and
template. -/
theorem c4_prefix_equiv (fs : ResourceFS) (dec : Decoder)
    (gt : String → Except PyError Template) (n enc err : String)
    (hn : ¬ _RSC.data.isPrefixOf n.data = true) :
    resource_bytes fs (_RSC ++ n) = resource_bytes fs n ∧
    resource_text fs dec (_RSC ++ n) enc err = resource_text fs dec n enc err ∧
    resource_template gt (_RSC ++ n) = resource_template gt n := by
  have h1 := strip_resource_append n
  have h2 := strip_resource_no_marker n hn
  refine ⟨?_, ?_, ?_⟩ <;>
    simp only [resource_bytes, resource_text, resource_template, h1, h2]

/-- Witness for the C4 theorem at the name foo.rst. -/
theorem c4_prefix_equiv_witness :
    (¬ _RSC.data.isPrefixOf (String.data "foo.rst") = true) ∧
    (resource_bytes (fun _ => some [7]) (_RSC ++ "foo.rst") =
        resource_bytes (fun _ => some [7]) "foo.rst" ∧
      resource_text (fun _ => some [7]) (fun _ _ _ => some "x")
          (_RSC ++ "foo.rst") "utf-8" "strict" =
        resource_text (fun _ => some [7]) (fun _ _ _ => some "x")
          "foo.rst" "utf-8" "strict" ∧
      resource_template (fun s => .ok ⟨s⟩) (_RSC ++ "foo.rst") =
        resource_template (fun s => .ok ⟨s⟩) "foo.rst") :=
  ⟨by decide,
    c4_prefix_equiv (fun _ => some [7]) (fun _ _ _ => some "x")
      (fun s => .ok ⟨s⟩) "foo.rst" "utf-8" "strict" (by decide)⟩

/-- C5: resolving a name whose normalized form has no bundled file behind it
(and which the template environment likewise reports missing) fails with the
respective not-found condition in all three operations, and in particular
never returns content, empty or otherwise. -/
theorem c5_not_found_propagates (fs : ResourceFS) (dec : Decoder)
    (gt : String → Except PyError Template) (n enc err : String)
    (hfs : fs (_strip_resource n) = none)
    (hgt : gt (_strip_resource n) = .error .templateNotFound) :
    resource_bytes fs n = .error .fileNotFoundError ∧
    resource_text fs dec n enc err = .error .fileNotFoundError ∧
    resource_template gt n = .error .templateNotFound ∧
    (∀ bs : Bytes, resource_bytes fs n ≠ .ok bs) ∧
    (∀ s : String, resource_text fs dec n enc err ≠ .ok s) ∧
    (∀ t : Template, resource_template gt n ≠ .ok t) := by
  refine ⟨?_, ?_, ?_, ?_, ?_, ?_⟩ <;>
    simp [resource_bytes, resource_text, resource_template, hfs, hgt]

/-- Witness for the C5 theorem on an empty storage. -/
theorem c5_not_found_propagates_witness :
    ((fun _ : String => (none : Option Bytes)) (_strip_resource "missing.rst") = none) ∧
    ((fun _ : String => (Except.error .templateNotFound : Except PyError Template))
        (_strip_resource "missing.rst") = .error .templateNotFound) ∧
    resource_bytes (fun _ => none) "missing.rst" = .error .fileNotFoundError ∧
    resource_bytes (fun _ => none) "missing.rst" ≠ .ok [] :=
  ⟨rfl, rfl,
    (c5_not_found_propagates (fun _ => none) (fun _ _ _ => none)
        (fun _ => .error .templateNotFound) "missing.rst" "utf-8" "strict" rfl rfl).1,
    (c5_not_found_propagates (fun _ => none) (fun _ _ _ => none)
        (fun _ => .error .templateNotFound) "missing.rst" "utf-8" "strict" rfl rfl).2.2.2.1 []⟩

/-- C6: registering a class stores it under its declared outputname and
returns the class unchanged; afterwards looking the name up yields the
class, the name appears in the enumeration of the registry, and looking up
any name still unregistered raises KeyError. -/
theorem c6_register_output_spec (r : _Outputs) (kls : OutputClass) (s2 : String)
    (h : s2 ∉ ((r.register kls).1).iterNames) :
    (r.register kls).2 = kls ∧
    ((r.register kls).1).output kls.outputname = .ok kls ∧
    kls.outputname ∈ ((r.register kls).1).iterNames ∧
    ((r.register kls).1).output s2 = .error .keyError := by
  refine ⟨rfl, ?_, ?_, ?_⟩
  · simp only [_Outputs.output, _Outputs.register, dictInsert_find]
  · exact dictInsert_mem_keys r._outputs kls.outputname kls
  · have h2 : s2 ∉ (dictInsert r._outputs kls.outputname kls).map (fun p => p.1) := h
    simp only [_Outputs.output, _Outputs.register]
    rw [find_none_of_not_mem_keys _ _ h2]

/-- Witness for the C6 theorem: registering a class named html in
the fresh registry and probing the unregistered name missing. -/
theorem c6_register_output_spec_witness :
    ("missing" ∉ ((_Outputs.initial.register ⟨"html", 0⟩).1).iterNames) ∧
    ((_Outputs.initial.register ⟨"html", 0⟩).2 = ⟨"html", 0⟩ ∧
      ((_Outputs.initial.register ⟨"html", 0⟩).1).output "html" = .ok ⟨"html", 0⟩ ∧
      "html" ∈ ((_Outputs.initial.register ⟨"html", 0⟩).1).iterNames ∧
      ((_Outputs.initial.register ⟨"html", 0⟩).1).output "missing" = .error .keyError) :=
  ⟨by decide, c6_register_output_spec _Outputs.initial ⟨"html", 0⟩ "missing" (by decide)⟩

/-- C7: docs builds the fixed name resource/ ++ name ++ /README.rst and
hands it to the text resolver, which normalizes it to name ++ /README.rst;
a missing README there propagates as the not-found failure, and an existing
decodable one is returned as text. -/
theorem c7_docs_readme_spec (r : _Outputs) (fs : ResourceFS) (dec : Decoder) (s : String) :
    r.docs fs dec s =
      resource_text fs dec (("resource/" ++ s) ++ "/README.rst") "utf-8" "strict" ∧
    (fs (s ++ "/README.rst") = none → r.docs fs dec s = .error .fileNotFoundError) ∧
    (∀ (bs : Bytes) (t : String), fs (s ++ "/README.rst") = some bs →
      dec "utf-8" "strict" bs = some t → r.docs fs dec s = .ok t) := by
  refine ⟨rfl, ?_, ?_⟩
  · intro h
    simp only [_Outputs.docs, resource_text, docs_target, h]
  · intro bs t hb ht
    simp only [_Outputs.docs, resource_text, docs_target, hb, ht]

/-- Witness for the C7 theorem: a missing README propagates not-found
and a present one is returned. -/
theorem c7_docs_readme_spec_witness :
    _Outputs.docs _Outputs.initial (fun _ => none) (fun _ _ _ => none) "html" =
      .error .fileNotFoundError ∧
    _Outputs.docs _Outputs.initial (fun _ => some [65]) (fun _ _ _ => some "A") "html" =
      .ok "A" :=
  ⟨(c7_docs_readme_spec _Outputs.initial (fun _ => none) (fun _ _ _ => none) "html").2.1 rfl,
   (c7_docs_readme_spec _Outputs.initial (fun _ => some [65]) (fun _ _ _ => some "A")
      "html").2.2 [65] "A" rfl rfl⟩

/-- C8: with the verbose flag false, printverbose returns the console
unchanged whatever the arguments and file keyword; with the flag true and no
file keyword it appends its arguments joined by single spaces followed by
the newline terminator to stderr, leaving stdout untouched. -/
theorem c8_printverbose_spec (args : List String) (file : Option StdStream) (c : Console) :
    printverbose ⟨false⟩ args file c = c ∧
    printverbose ⟨true⟩ args none c =
      ⟨c.errWrites ++ [String.intercalate " " args ++ "\n"], c.outWrites⟩ :=
  ⟨rfl, rfl⟩

/-- C9 counterexample: open on the standard-output destination does not fail
with the unsupported-operation condition: it succeeds, returning the
destination itself. -/
theorem c9_stdOutput_open_cex :
    StdOutput.open_ ⟨⟩ = .ok ⟨⟩ ∧
    StdOutput.open_ ⟨⟩ ≠ .error .notImplementedError :=
  ⟨rfl, fun h => Except.noConfusion h⟩

/-- C9 (amended): open raises NotImplementedError on the base destination
and on the direct-stream destination, which inherits it; on the
standard-output destination open does not fail but returns the same
destination (a no-op), as the overview section of the specification
describes. -/
theorem c9_open_unsupported_spec :
    _BaseOutputDestination.open_ = .error .notImplementedError ∧
    (∀ t : TextOutput, t.open_ = .error .notImplementedError) ∧
    (∀ s : StdOutput, s.open_ = .ok s) :=
  ⟨rfl, fun _ => rfl, fun _ => rfl⟩

/-- C10: docs never consults the registry: any two registry states give the
same answer for every name, and for any name at all, registered or not, docs
succeeds on an existing decodable README under that name and fails with
not-found when the README is missing. -/
theorem c10_docs_ignores_registry (r1 r2 : _Outputs) (fs : ResourceFS) (dec : Decoder)
    (s : String) :
    r1.docs fs dec s = r2.docs fs dec s ∧
    (fs (s ++ "/README.rst") = none → r1.docs fs dec s = .error .fileNotFoundError) ∧
    (∀ (bs : Bytes) (t : String), fs (s ++ "/README.rst") = some bs →
      dec "utf-8" "strict" bs = some t → r1.docs fs dec s = .ok t) := by
  refine ⟨rfl, ?_, ?_⟩
  · intro h
    simp only [_Outputs.docs, resource_text, docs_target, h]
  · intro bs t hb ht
    simp only [_Outputs.docs, resource_text, docs_target, hb, ht]

/-- Witness for the C10 theorem: the name tex is unregistered in
the probed registry, yet docs agrees with the fresh registry and succeeds. -/
theorem c10_docs_ignores_registry_witness :
    _Outputs.docs ⟨[("html", ⟨"html", 0⟩)]⟩ (fun _ => some [66]) (fun _ _ _ => some "B")
        "tex" =
      _Outputs.docs _Outputs.initial (fun _ => some [66]) (fun _ _ _ => some "B") "tex" ∧
    _Outputs.docs ⟨[("html", ⟨"html", 0⟩)]⟩ (fun _ => some [66]) (fun _ _ _ => some "B")
        "tex" = .ok "B" :=
  ⟨(c10_docs_ignores_registry ⟨[("html", ⟨"html", 0⟩)]⟩ _Outputs.initial
      (fun _ => some [66]) (fun _ _ _ => some "B") "tex").1,
   (c10_docs_ignores_registry ⟨[("html", ⟨"html", 0⟩)]⟩ _Outputs.initial
      (fun _ => some [66]) (fun _ _ _ => some "B") "tex").2.2 [66] "B" rfl rfl⟩

end RegisterMaps
